import Mathlib

/-
Verification of the TinyTummy nutrition gamification recompute engine
(app/services/gamification_v1.py together with the child-scoped tables of
app/models/gamification.py), as a shallow embedding.

Modelling conventions:
* user/child identifiers are opaque `Nat`s (UUIDs in the source);
* calendar days are `Int` day ordinals, so `day - 1` is the previous day
  (`timedelta(days=1)` in the source);
* the year/month/day triples used only by the age computation are a
  separate `Date3` structure mirroring `datetime.date` field access;
* nutrient amounts are `ℚ` (the source uses floats; all claims settled
  here are threshold and bound properties, insensitive to float rounding,
  and Python's banker rounding `round` is embedded exactly as `pyRound`);
* each table is a list of rows; SQL `first()` is `List.find?`, the ORM
  update-first-or-insert and the `ON CONFLICT DO UPDATE` upsert are both
  `upsert` (update the unique matching row, else append), and
  `ON CONFLICT DO NOTHING` is `insertOnce`;
* the engine's blanket `except SQLAlchemyError` handlers model the
  no-storage-failure executions (storage failures are environmental);
  the `except Exception` around `compute_daily_score` in
  `recompute_for_day` is modelled faithfully: a missing child makes
  `compute_daily_score` return `none` (the `raise ValueError` path,
  which occurs before any of its writes) and the orchestrator then
  proceeds with `{"score": 0, "components": {}}`.
-/

/-- Nutrient keys tracked by the meal aggregation query. -/
inductive Nutrient where
  | calories
  | protein_g
  | fiber_g
  | iron_mg
  | calcium_mg
  | vitamin_a_iu
  | vitamin_c_mg
  | vitamin_d_iu
  | zinc_mg
deriving DecidableEq, Repr

/-- Calendar date as year/month/day, used by `_calc_age_months`. -/
structure Date3 where
  y : Int
  m : Int
  d : Int
deriving DecidableEq, Repr

/-- Row of `children` (the fields gamification reads). -/
structure Child where
  id : Nat
  user_id : Nat
  date_of_birth : Date3
  region : Option String
deriving DecidableEq, Repr

/-- Row of `meals` (the fields gamification reads). `meal_time_day` is the
date part of the `meal_time` timestamp, so `func.coalesce(Meal.meal_date,
func.date(Meal.meal_time))` is `meal_date.getD meal_time_day`. -/
structure Meal where
  id : Nat
  child_id : Nat
  user_id : Nat
  meal_date : Option Int
  meal_time_day : Int
  created_at : Nat
  calories : Option ℚ
  protein_g : Option ℚ
  fiber_g : Option ℚ
  iron_mg : Option ℚ
  calcium_mg : Option ℚ
  vitamin_a_iu : Option ℚ
  vitamin_c_mg : Option ℚ
  vitamin_d_iu : Option ℚ
  zinc_mg : Option ℚ
deriving DecidableEq, Repr

/-- Effective date of a meal: `func.coalesce(Meal.meal_date, func.date(Meal.meal_time))`. -/
def Meal.effDate (m : Meal) : Int :=
  m.meal_date.getD m.meal_time_day

/-- Field access for the nutrient columns summed by `_totals_for_day`. -/
def Meal.nutr (m : Meal) : Nutrient → Option ℚ
  | .calories => m.calories
  | .protein_g => m.protein_g
  | .fiber_g => m.fiber_g
  | .iron_mg => m.iron_mg
  | .calcium_mg => m.calcium_mg
  | .vitamin_a_iu => m.vitamin_a_iu
  | .vitamin_c_mg => m.vitamin_c_mg
  | .vitamin_d_iu => m.vitamin_d_iu
  | .zinc_mg => m.zinc_mg

/-- Row of `gam_daily_score`: unique per (user_id, child_id, date);
`components` is the `components_json` column (JSONB, default `{}` = `[]`). -/
structure DailyScoreRow where
  user_id : Nat
  child_id : Nat
  date : Int
  score : Int
  components : List (Nutrient × Int)
deriving DecidableEq, Repr

/-- Row of `gam_points_ledger`: unique per (user_id, child_id, date, reason). -/
structure LedgerRow where
  user_id : Nat
  child_id : Nat
  date : Int
  points : Int
  reason : String
deriving DecidableEq, Repr

/-- Row of `gam_streak`: unique per (user_id, child_id). -/
structure StreakRow where
  user_id : Nat
  child_id : Nat
  current_length : Int
  best_length : Int
  last_active_date : Option Int
deriving DecidableEq, Repr

/-- Database state: the tables the recompute engine reads or writes.
`userBadges` is the `user_badges` table, rows as (user_id, badge name). -/
structure DB where
  children : List Child
  meals : List Meal
  dailyScores : List DailyScoreRow
  ledger : List LedgerRow
  streaks : List StreakRow
  userBadges : List (Nat × String)
deriving DecidableEq, Repr

/-- Snapshot returned by `recompute_for_day`. -/
structure Snapshot where
  score : Int
  components : List (Nutrient × Int)
  streakCurrent : Int
  streakBest : Int
  points_awarded_today : Int
deriving DecidableEq, Repr

/-- Update the first row matching `p` with `f`, else append the fresh row
`mk`: the ORM's query-first-then-update-or-add pattern, and (on a table
whose rows have unique keys) `INSERT .. ON CONFLICT DO UPDATE`. -/
def upsert {α : Type} (p : α → Bool) (f : α → α) (mk : α) : List α → List α
  | [] => [mk]
  | a :: as => if p a then f a :: as else a :: upsert p f mk as

/-- Conditional insert: append `mk` unless a row matching `p` exists;
also report whether a row was inserted (the `rowcount` of an
`INSERT .. ON CONFLICT DO NOTHING`). -/
def insertOnce {α : Type} (p : α → Bool) (mk : α) (l : List α) : List α × Bool :=
  if l.any p then (l, false) else (l ++ [mk], true)

/-- Python's built-in `round` (round half to even) on a rational. -/
def pyRound (q : ℚ) : Int :=
  let f := ⌊q⌋
  let r := q - (f : ℚ)
  if r < 1/2 then f
  else if 1/2 < r then f + 1
  else if f % 2 = 0 then f else f + 1

/-- Key predicate of the `gam_daily_score` unique constraint. -/
def dsKey (u c : Nat) (day : Int) (r : DailyScoreRow) : Bool :=
  r.user_id == u && r.child_id == c && r.date == day

/-- Key predicate of the `gam_points_ledger` unique constraint. -/
def ledKey (u c : Nat) (day : Int) (reason : String) (e : LedgerRow) : Bool :=
  e.user_id == u && e.child_id == c && e.date == day && e.reason == reason

/-- Key predicate of the `gam_streak` unique constraint. -/
def stKey (u c : Nat) (s : StreakRow) : Bool :=
  s.user_id == u && s.child_id == c

/-- Predicate selecting the meals of (user, child) whose effective date is `day`. -/
def mealMatch (u c : Nat) (day : Int) (m : Meal) : Bool :=
  m.child_id == c && m.user_id == u && m.effDate == day

/-- Embeds `_calc_age_months(dob)` with `datetime.utcnow().date()` passed
explicitly as `today`. -/
def calc_age_months (today dob : Date3) : Int :=
  max 0 ((today.y - dob.y) * 12 + (today.m - dob.m) - (if today.d < dob.d then 1 else 0))

/-- Embeds `_targets_for_age_region`: three fixed age bands, region unused. -/
def targets_for_age_region (age_months : Int) (region : String) : Nutrient → Option ℚ :=
  if age_months ≤ 12 then fun k =>
    match k with
    | .calories => some 700
    | .protein_g => some 11
    | .iron_mg => some 11
    | .vitamin_d_iu => some 400
    | _ => none
  else if age_months ≤ 36 then fun k =>
    match k with
    | .calories => some 1000
    | .protein_g => some 13
    | .fiber_g => some 14
    | .iron_mg => some 7
    | .calcium_mg => some 700
    | .vitamin_a_iu => some 1000
    | .vitamin_c_mg => some 15
    | .vitamin_d_iu => some 600
    | .zinc_mg => some 3
  else fun k =>
    match k with
    | .calories => some 1200
    | .protein_g => some 19
    | .fiber_g => some 17
    | .iron_mg => some 10
    | .calcium_mg => some 1000
    | .vitamin_c_mg => some 25
    | .zinc_mg => some 5
    | _ => none

/-- Embeds `_totals_for_day`: per nutrient, SQL `SUM` over the matching
meals ignores NULL values and is itself NULL (key absent from the result)
when no non-null value contributed. -/
def totals_for_day (db : DB) (u c : Nat) (day : Int) : Nutrient → Option ℚ :=
  fun k =>
    let vs := (db.meals.filter (mealMatch u c day)).filterMap (fun m => m.nutr k)
    if vs.isEmpty then none else some vs.sum

/-- Fixed weight table of `compute_daily_score`, in insertion order. -/
def weights : List (Nutrient × Int) :=
  [(.calories, 25), (.protein_g, 25), (.iron_mg, 15), (.calcium_mg, 15),
   (.vitamin_c_mg, 10), (.fiber_g, 10)]

/-- Per-key points of `compute_daily_score`:
`if tgt and act is not None and tgt > 0: pts = int(round(min(act/tgt,1.0)*weight)) else 0`
(a zero target is falsy, so the guard is exactly target present and positive,
actual present). -/
def componentPoints (targets totals : Nutrient → Option ℚ) (key : Nutrient) (weight : Int) : Int :=
  match targets key, totals key with
  | some tgt, some act => if 0 < tgt then pyRound (min (act / tgt) 1 * (weight : ℚ)) else 0
  | _, _ => 0

/-- The `component_scores` dict of `compute_daily_score`, in weight order. -/
def scoreComponents (targets totals : Nutrient → Option ℚ) : List (Nutrient × Int) :=
  weights.map (fun kw => (kw.1, componentPoints targets totals kw.1 kw.2))

/-- The `total_score` accumulator of `compute_daily_score`. -/
def totalScore (targets totals : Nutrient → Option ℚ) : Int :=
  ((scoreComponents targets totals).map Prod.snd).sum

/-- The child lookup `db.query(Child).filter(Child.id == child_id, Child.user_id == user_id).first()`. -/
def childLookup (db : DB) (u c : Nat) : Option Child :=
  db.children.find? (fun ch => ch.id == c && ch.user_id == u)

/-- Embeds `compute_daily_score`: `none` is the `raise ValueError("child not
found or unauthorized")` path, taken before any write; otherwise the score
and components are computed and upserted (ORM query-then-update-or-add on
`gam_daily_score`, setting both `score` and `components_json`). -/
def compute_daily_score (today : Date3) (db : DB) (u c : Nat) (day : Int) :
    Option ((Int × List (Nutrient × Int)) × DB) :=
  match childLookup db u c with
  | none => none
  | some child =>
    let age_months := calc_age_months today child.date_of_birth
    let targets := targets_for_age_region age_months (child.region.getD "US")
    let totals := totals_for_day db u c day
    let comps := scoreComponents targets totals
    let score := totalScore targets totals
    let db' := { db with
      dailyScores := upsert (dsKey u c day)
        (fun r => { r with score := score, components := comps })
        ⟨u, c, day, score, comps⟩ db.dailyScores }
    some ((score, comps), db')

/-- The Core `INSERT .. ON CONFLICT DO UPDATE` on `gam_daily_score` in
`recompute_for_day`: only `score` is set on conflict; a fresh row gets the
column default `{}` for `components_json`. -/
def coreUpsertScore (u c : Nat) (day : Int) (sv : Int) (ds : List DailyScoreRow) :
    List DailyScoreRow :=
  upsert (dsKey u c day) (fun r => { r with score := sv }) ⟨u, c, day, sv, []⟩ ds

/-- The grant table of the points loop:
`[("base", 10, True), ("score70", 10, rb >= 70), ("score90", 20, rb >= 90)]`. -/
def grantList (rb : Int) : List (String × Int × Bool) :=
  [("base", 10, true), ("score70", 10, decide (70 ≤ rb)), ("score90", 20, decide (90 ≤ rb))]

/-- One iteration of the points loop: skip when the condition is false, else
`INSERT .. ON CONFLICT DO NOTHING` and add the points when `rowcount` is 1. -/
def pointsStep (u c : Nat) (day : Int) (acc : List LedgerRow × Int)
    (g : String × Int × Bool) : List LedgerRow × Int :=
  if g.2.2 then
    let r := insertOnce (ledKey u c day g.1) ⟨u, c, day, g.2.1, g.1⟩ acc.1
    (r.1, acc.2 + if r.2 then g.2.1 else 0)
  else acc

/-- The streak read-modify-write of `recompute_for_day`: from the existing
row (if any) and `has_any`, the new `(current_length, best_length,
last_active_date)` values written by the `ON CONFLICT DO UPDATE` upsert. -/
def streakNew (existing : Option StreakRow) (day : Int) (has_any : Bool) :
    Int × Int × Option Int :=
  let last_active := match existing with
    | some s => s.last_active_date
    | none => none
  if has_any then
    let new_current :=
      if last_active == some (day - 1) then
        (match existing with | some s => s.current_length | none => 0) + 1
      else if last_active == some day then
        (match existing with | some s => s.current_length | none => 1)
      else 1
    let new_best := max (match existing with | some s => s.best_length | none => 0) new_current
    (new_current, new_best, some day)
  else
    ((match existing with | some s => s.current_length | none => 0),
     (match existing with | some s => s.best_length | none => 0),
     last_active)

/-- The streak `INSERT .. ON CONFLICT DO UPDATE` of `recompute_for_day`,
writing the values `nv = (new_current, new_best, last_active_date)`. -/
def streakWrite (u c : Nat) (nv : Int × Int × Option Int) (st : List StreakRow) : List StreakRow :=
  upsert (stKey u c)
    (fun s => { s with current_length := nv.1, best_length := nv.2.1, last_active_date := nv.2.2 })
    ⟨u, c, nv.1, nv.2.1, nv.2.2⟩ st

/-- Embeds `recompute_for_day` (the orchestrator): active-day detection,
daily-score computation (child-not-found caught, degrading to score 0 and
empty components), Core score upsert, score readback, the three idempotent
point grants evaluated against the readback, and the streak upsert. The
points readback block only logs and is omitted; no badge evaluation occurs
in this function. Returns the snapshot and the new database state. -/
def recompute_for_day (today : Date3) (db : DB) (u c : Nat) (day : Int) :
    Snapshot × DB :=
  let has_any := db.meals.any (mealMatch u c day)
  let step1 := match compute_daily_score today db u c day with
    | some (v, db') => (v, db')
    | none => (((0 : Int), ([] : List (Nutrient × Int))), db)
  let daily := step1.1
  let db₁ := step1.2
  let score_val := daily.1
  let db₂ := { db₁ with dailyScores := coreUpsertScore u c day score_val db₁.dailyScores }
  let rb := (((db₂.dailyScores.find? (dsKey u c day)).map (fun r => r.score)).getD 0)
  let pts := (grantList rb).foldl (pointsStep u c day) (db₂.ledger, 0)
  let db₃ := { db₂ with ledger := pts.1 }
  let points_awarded := pts.2
  let existing := db₃.streaks.find? (stKey u c)
  let nv := streakNew existing day has_any
  let db₄ := { db₃ with streaks := streakWrite u c nv db₃.streaks }
  ({ score := daily.1, components := daily.2,
     streakCurrent := if has_any then nv.1 else 0,
     streakBest := if has_any then nv.2.1 else 0,
     points_awarded_today := points_awarded }, db₄)

/-- Folding a list of recompute calls (today, user, child, day) over a
database state: any number of successive `recompute_for_day` invocations. -/
def applyCalls (calls : List (Date3 × Nat × Nat × Int)) (db : DB) : DB :=
  calls.foldl (fun d q => (recompute_for_day q.1 d q.2.1 q.2.2.1 q.2.2.2).2) db

/-- Ledger rows appended by one run of the points loop of
`recompute_for_day`, given the prior ledger `l₀` and readback score `rb`. -/
def grantTail (l₀ : List LedgerRow) (u c : Nat) (day : Int) (rb : Int) : List LedgerRow :=
  (if l₀.any (ledKey u c day "base") = true then [] else [⟨u, c, day, 10, "base"⟩])
    ++ (if 70 ≤ rb ∧ l₀.any (ledKey u c day "score70") = false then [⟨u, c, day, 10, "score70"⟩] else [])
    ++ (if 90 ≤ rb ∧ l₀.any (ledKey u c day "score90") = false then [⟨u, c, day, 20, "score90"⟩] else [])

/-- Points awarded by one run of the points loop of `recompute_for_day`. -/
def grantSum (l₀ : List LedgerRow) (u c : Nat) (day : Int) (rb : Int) : Int :=
  (if l₀.any (ledKey u c day "base") = true then 0 else 10)
    + (if 70 ≤ rb ∧ l₀.any (ledKey u c day "score70") = false then 10 else 0)
    + (if 90 ≤ rb ∧ l₀.any (ledKey u c day "score90") = false then 20 else 0)

/-- The score/components pair freshly computed by a recompute call:
`(0, {})` when the child lookup fails, else the weighted score against the
age-banded targets and the day's totals. -/
def freshDaily (t : Date3) (db : DB) (u c : Nat) (day : Int) : Int × List (Nutrient × Int) :=
  match childLookup db u c with
  | none => (0, [])
  | some child =>
    (totalScore (targets_for_age_region (calc_age_months t child.date_of_birth)
        (child.region.getD "US")) (totals_for_day db u c day),
     scoreComponents (targets_for_age_region (calc_age_months t child.date_of_birth)
        (child.region.getD "US")) (totals_for_day db u c day))

/-- State of `gam_daily_score` after the ORM upsert inside
`compute_daily_score` (a no-op when the child lookup fails). -/
def ormScores (t : Date3) (db : DB) (u c : Nat) (day : Int) : List DailyScoreRow :=
  match childLookup db u c with
  | none => db.dailyScores
  | some _ =>
    upsert (dsKey u c day)
      (fun r => { r with score := (freshDaily t db u c day).1,
                         components := (freshDaily t db u c day).2 })
      ⟨u, c, day, (freshDaily t db u c day).1, (freshDaily t db u c day).2⟩ db.dailyScores

/-- Fixed reference date standing for `datetime.utcnow().date()`. -/
def t0 : Date3 := ⟨2024, 1, 1⟩

/-- Day ordinal of 2024-01-01. -/
def d20240101 : Int := 739252

/-- A child of user 1 born 2022-01-01. -/
def sampleChild : Child := ⟨1, 1, ⟨2022, 1, 1⟩, none⟩

/-- State with `sampleChild`, no meals, and no gamification rows. -/
def noMealDB : DB := ⟨[sampleChild], [], [], [], [], []⟩

/-- The six-key all-zero components mapping produced for a day with no meals. -/
def zeroComponents : List (Nutrient × Int) :=
  [(.calories, 0), (.protein_g, 0), (.iron_mg, 0), (.calcium_mg, 0),
   (.vitamin_c_mg, 0), (.fiber_g, 0)]

/-- State with no children at all (so any child lookup fails). -/
def noChildDB : DB := ⟨[], [], [], [], [], []⟩

/-- A meal of (user 1, child 1) on day `dy` with all nutrient fields null. -/
def plainMeal (i : Nat) (dy : Int) : Meal :=
  ⟨i, 1, 1, some dy, dy, i, none, none, none, none, none, none, none, none, none⟩

/-- State with one meal on each of the seven consecutive days starting 2024-01-01. -/
def weekMealDB : DB :=
  ⟨[sampleChild], (List.range 7).map (fun i => plainMeal i (d20240101 + i)), [], [], [], []⟩

/-- The seven recompute calls for 2024-01-01 .. 2024-01-07. -/
def weekCalls : List (Date3 × Nat × Nat × Int) :=
  (List.range 7).map (fun i => (t0, 1, 1, d20240101 + i))

/-- A meal on 2024-01-01 whose stored calories value is negative (the schema
has no nonnegativity validation on nutrient columns). -/
def negMeal : Meal :=
  ⟨0, 1, 1, some d20240101, d20240101, 0, some (-700), none, none, none, none, none,
   none, none, none⟩

/-- A child young enough for the first target band (calories target 700). -/
def youngChild : Child := ⟨1, 1, ⟨2023, 6, 1⟩, none⟩

/-- State with `youngChild` and the negative-calories meal. -/
def negMealDB : DB := ⟨[youngChild], [negMeal], [], [], [], []⟩

/-- State with an existing positive streak row for (user 1, child 1) and no
meals at all. -/
def streakDB : DB := ⟨[sampleChild], [], [], [], [⟨1, 1, 3, 5, some (d20240101 - 1)⟩], []⟩

/-- Previous `best_length` (0 when no prior record), as the specification
words it. -/
def claimPrevBest (existing : Option StreakRow) : Int :=
  match existing with
  | some s => s.best_length
  | none => 0

/-- Streak-row sanity, true of every state the engine itself produces:
a row with a non-null `last_active_date` has `current_length ≥ 1`. -/
def streakOk (db : DB) (u c : Nat) : Prop :=
  ∀ s, db.streaks.find? (stKey u c) = some s →
    s.last_active_date ≠ none → 1 ≤ s.current_length

/-- State with a meal on 2024-01-01 and an existing streak row (2, 5) whose
last active day is 2023-12-31. -/
def streakActiveDB : DB :=
  ⟨[sampleChild], [plainMeal 0 d20240101], [], [],
   [⟨1, 1, 2, 5, some (d20240101 - 1)⟩], []⟩

/-- The streak `current_length` transition exactly as the specification
words it, for comparison with the code's `streakNew`: +1 after a
consecutive day, unchanged (or 1 if previously 0) on a same-day recompute,
1 on a gap or with no prior record. -/
def claimNewCurrent (existing : Option StreakRow) (day : Int) : Int :=
  match existing with
  | some s =>
    if s.last_active_date = some (day - 1) then s.current_length + 1
    else if s.last_active_date = some day then
      (if s.current_length = 0 then 1 else s.current_length)
    else 1
  | none => 1

/-- The `gam_points_ledger` uniqueness invariant: no two rows share the
(user_id, child_id, date, reason) key. -/
def ledgerKeysUnique (l : List LedgerRow) : Prop :=
  l.Pairwise (fun a b => ¬(a.user_id = b.user_id ∧ a.child_id = b.child_id
    ∧ a.date = b.date ∧ a.reason = b.reason))

lemma find?_upsert {α : Type} (p : α → Bool) (f : α → α) (mk : α) (l : List α)
    (hf : ∀ a, p a = true → p (f a) = true) (hmk : p mk = true) :
    (upsert p f mk l).find? p = some ((l.find? p).elim mk f) := by
  induction l with
  | nil => simp [upsert, List.find?, hmk]
  | cons a as ih =>
    by_cases hpa : p a = true
    · simp [upsert, hpa, List.find?_cons_of_pos _ hpa, List.find?_cons_of_pos _ (hf a hpa)]
    · have hpa' : p a = false := by simpa using hpa
      simp [upsert, hpa', List.find?_cons_of_neg, ih]

lemma upsert_eq_of_fix {α : Type} (p : α → Bool) (f : α → α) (mk : α) (l : List α)
    (b : α) (hb : l.find? p = some b) (hfb : f b = b) :
    upsert p f mk l = l := by
  induction l with
  | nil => simp [List.find?] at hb
  | cons a as ih =>
    by_cases hpa : p a = true
    · rw [List.find?_cons_of_pos _ hpa] at hb
      obtain rfl : a = b := by simpa using hb
      simp [upsert, hpa, hfb]
    · have hpa' : p a = false := by simpa using hpa
      rw [List.find?_cons_of_neg _ (by simp [hpa'])] at hb
      simp [upsert, hpa', ih hb]

lemma find?_upsert_disjoint {α : Type} (p pk : α → Bool) (f : α → α) (mk : α) (l : List α)
    (hdisj : ∀ a, pk a = true → p a = false) (hf : ∀ a, p (f a) = p a) (hmk : p mk = false) :
    (upsert pk f mk l).find? p = l.find? p := by
  induction l with
  | nil => simp [upsert, List.find?, hmk]
  | cons a as ih =>
    by_cases hka : pk a = true
    · have h1 : p a = false := hdisj a hka
      have h2 : p (f a) = false := by rw [hf]; exact h1
      simp only [upsert, hka, if_true]
      rw [List.find?_cons_of_neg _ (by simp [h2]), List.find?_cons_of_neg _ (by simp [h1])]
    · have hka' : pk a = false := by simpa using hka
      by_cases hpa : p a = true
      · simp only [upsert, hka', Bool.false_eq_true, if_false]
        rw [List.find?_cons_of_pos _ hpa, List.find?_cons_of_pos _ hpa]
      · have hpa' : p a = false := by simpa using hpa
        simp only [upsert, hka', Bool.false_eq_true, if_false]
        rw [List.find?_cons_of_neg _ (by simp [hpa']), List.find?_cons_of_neg _ (by simp [hpa']), ih]

lemma pyRound_nonneg (q : ℚ) (h : 0 ≤ q) : 0 ≤ pyRound q := by
  have h0 : 0 ≤ ⌊q⌋ := Int.floor_nonneg.mpr h
  simp only [pyRound]
  split_ifs <;> omega

lemma pyRound_le (q : ℚ) (B : Int) (h : q ≤ (B : ℚ)) : pyRound q ≤ B := by
  have hfB : ⌊q⌋ ≤ B := by
    have := Int.floor_le_floor h
    simpa using this
  have hfq : (⌊q⌋ : ℚ) ≤ q := Int.floor_le q
  simp only [pyRound]
  split_ifs with h1 h2 h3
  · exact hfB
  · rcases lt_or_eq_of_le hfB with hlt | heq
    · omega
    · exfalso
      rw [heq] at h2
      have : (B : ℚ) + 1/2 < q := by linarith
      linarith
  · exact hfB
  · rcases lt_or_eq_of_le hfB with hlt | heq
    · omega
    · exfalso
      have hr : q - (⌊q⌋ : ℚ) = 1/2 := le_antisymm (not_lt.mp h2) (not_lt.mp h1)
      rw [heq] at hr
      have : q = (B : ℚ) + 1/2 := by linarith
      rw [this] at h
      linarith

lemma ledKey_mk_false (u c : Nat) (day : Int) (pts : Int) (r1 r2 : String)
    (h : (r1 == r2) = false) :
    ledKey u c day r2 (⟨u, c, day, pts, r1⟩ : LedgerRow) = false := by
  simp [ledKey, h]

lemma pointsStep_eq (u c : Nat) (day : Int) (acc : List LedgerRow × Int)
    (reason : String) (pts : Int) (cond : Bool) :
    pointsStep u c day acc (reason, pts, cond) =
      if cond then
        (if acc.1.any (ledKey u c day reason) = true then (acc.1, acc.2)
         else (acc.1 ++ [⟨u, c, day, pts, reason⟩], acc.2 + pts))
      else acc := by
  cases cond <;> by_cases h : acc.1.any (ledKey u c day reason) = true <;>
    simp [pointsStep, insertOnce, h]

lemma pointsStage_eq (u c : Nat) (day : Int) (rb : Int) (l₀ : List LedgerRow) :
    (grantList rb).foldl (pointsStep u c day) (l₀, 0) =
      (l₀ ++ grantTail l₀ u c day rb, grantSum l₀ u c day rb) := by
  have sb70 : ledKey u c day "score70" (⟨u, c, day, 10, "base"⟩ : LedgerRow) = false :=
    ledKey_mk_false u c day 10 "base" "score70" rfl
  have sb90 : ledKey u c day "score90" (⟨u, c, day, 10, "base"⟩ : LedgerRow) = false :=
    ledKey_mk_false u c day 10 "base" "score90" rfl
  have s790 : ledKey u c day "score90" (⟨u, c, day, 10, "score70"⟩ : LedgerRow) = false :=
    ledKey_mk_false u c day 10 "score70" "score90" rfl
  simp only [grantList, List.foldl, pointsStep_eq, if_true]
  by_cases hb : l₀.any (ledKey u c day "base") = true
  · rcases le_or_lt 70 rb with hr70 | hr70
    · rcases le_or_lt 90 rb with hr90 | hr90
      · by_cases h70 : l₀.any (ledKey u c day "score70") = true
        · by_cases h90 : l₀.any (ledKey u c day "score90") = true
          · simp [hb, h70, h90, hr70, hr90, grantTail, grantSum, List.any_append]
          · simp [hb, h70, h90, hr70, hr90, grantTail, grantSum, List.any_append]
        · by_cases h90 : l₀.any (ledKey u c day "score90") = true
          · simp [hb, h70, h90, hr70, hr90, grantTail, grantSum, List.any_append, s790]
          · simp [hb, h70, h90, hr70, hr90, grantTail, grantSum, List.any_append, s790]
      · by_cases h70 : l₀.any (ledKey u c day "score70") = true
        · simp [hb, h70, hr70, not_le.mpr hr90, grantTail, grantSum, List.any_append]
        · simp [hb, h70, hr70, not_le.mpr hr90, grantTail, grantSum, List.any_append]
    · have hr90 : rb < 90 := by omega
      simp [hb, not_le.mpr hr70, not_le.mpr hr90, grantTail, grantSum]
  · rcases le_or_lt 70 rb with hr70 | hr70
    · rcases le_or_lt 90 rb with hr90 | hr90
      · by_cases h70 : l₀.any (ledKey u c day "score70") = true
        · by_cases h90 : l₀.any (ledKey u c day "score90") = true
          · simp [hb, h70, h90, hr70, hr90, grantTail, grantSum, List.any_append, sb70, sb90]
          · simp [hb, h70, h90, hr70, hr90, grantTail, grantSum, List.any_append, sb70, sb90]
        · by_cases h90 : l₀.any (ledKey u c day "score90") = true
          · simp [hb, h70, h90, hr70, hr90, grantTail, grantSum, List.any_append, sb70, sb90, s790]
          · simp [hb, h70, h90, hr70, hr90, grantTail, grantSum, List.any_append, sb70, sb90, s790]
      · by_cases h70 : l₀.any (ledKey u c day "score70") = true
        · simp [hb, h70, hr70, not_le.mpr hr90, grantTail, grantSum, List.any_append, sb70]
        · simp [hb, h70, hr70, not_le.mpr hr90, grantTail, grantSum, List.any_append, sb70]
    · have hr90 : rb < 90 := by omega
      simp [hb, not_le.mpr hr70, not_le.mpr hr90, grantTail, grantSum, List.any_append]

lemma compute_daily_score_char (t : Date3) (db : DB) (u c : Nat) (day : Int) :
    compute_daily_score t db u c day =
      match childLookup db u c with
      | none => none
      | some _ => some (((freshDaily t db u c day).1, (freshDaily t db u c day).2),
          { db with dailyScores := ormScores t db u c day }) := by
  cases hcl : childLookup db u c <;>
    simp [compute_daily_score, freshDaily, ormScores, hcl]

lemma coreUpsert_find? (u c : Nat) (day : Int) (sv : Int) (ds : List DailyScoreRow) :
    (coreUpsertScore u c day sv ds).find? (dsKey u c day)
      = some ((ds.find? (dsKey u c day)).elim (⟨u, c, day, sv, []⟩ : DailyScoreRow)
          (fun r => { r with score := sv })) := by
  apply find?_upsert
  · intro a ha
    cases a
    simpa [dsKey] using ha
  · simp [dsKey]

lemma coreUpsert_rb (u c : Nat) (day : Int) (sv : Int) (ds : List DailyScoreRow) :
    (((coreUpsertScore u c day sv ds).find? (dsKey u c day)).map (fun r => r.score)).getD 0
      = sv := by
  rw [coreUpsert_find?]
  cases h : ds.find? (dsKey u c day) <;> simp [Option.elim]
/-- Solved form of `recompute_for_day`: snapshot and per-table state effects. -/
lemma recompute_char (t : Date3) (db : DB) (u c : Nat) (day : Int) :
    recompute_for_day t db u c day =
      ({ score := (freshDaily t db u c day).1,
         components := (freshDaily t db u c day).2,
         streakCurrent := if db.meals.any (mealMatch u c day) then
           (streakNew (db.streaks.find? (stKey u c)) day (db.meals.any (mealMatch u c day))).1 else 0,
         streakBest := if db.meals.any (mealMatch u c day) then
           (streakNew (db.streaks.find? (stKey u c)) day (db.meals.any (mealMatch u c day))).2.1 else 0,
         points_awarded_today := grantSum db.ledger u c day (freshDaily t db u c day).1 },
       { children := db.children,
         meals := db.meals,
         dailyScores := coreUpsertScore u c day (freshDaily t db u c day).1 (ormScores t db u c day),
         ledger := db.ledger ++ grantTail db.ledger u c day (freshDaily t db u c day).1,
         streaks := streakWrite u c
           (streakNew (db.streaks.find? (stKey u c)) day (db.meals.any (mealMatch u c day))) db.streaks,
         userBadges := db.userBadges }) := by
  rw [recompute_for_day, compute_daily_score_char]
  cases hcl : childLookup db u c
  · simp only [freshDaily, ormScores, hcl]
    rw [coreUpsert_rb, pointsStage_eq]
  · simp only [freshDaily, ormScores, hcl]
    rw [coreUpsert_rb, pointsStage_eq]
lemma any_base_after (l₀ : List LedgerRow) (u c : Nat) (day : Int) (rb : Int) :
    (l₀ ++ grantTail l₀ u c day rb).any (ledKey u c day "base") = true := by
  by_cases hb : l₀.any (ledKey u c day "base") = true
  · simp [List.any_append, hb]
  · simp [grantTail, List.any_append, hb, ledKey]

lemma any_score70_after (l₀ : List LedgerRow) (u c : Nat) (day : Int) (rb : Int)
    (h : 70 ≤ rb) :
    (l₀ ++ grantTail l₀ u c day rb).any (ledKey u c day "score70") = true := by
  by_cases h70 : l₀.any (ledKey u c day "score70") = true
  · simp [List.any_append, h70]
  · simp [grantTail, List.any_append, h70, h, ledKey]

lemma any_score90_after (l₀ : List LedgerRow) (u c : Nat) (day : Int) (rb : Int)
    (h : 90 ≤ rb) :
    (l₀ ++ grantTail l₀ u c day rb).any (ledKey u c day "score90") = true := by
  by_cases h90 : l₀.any (ledKey u c day "score90") = true
  · simp [List.any_append, h90]
  · simp [grantTail, List.any_append, h90, h, ledKey]

lemma streakWrite_find? (u c : Nat) (nv : Int × Int × Option Int) (st : List StreakRow) :
    (streakWrite u c nv st).find? (stKey u c) = some ⟨u, c, nv.1, nv.2.1, nv.2.2⟩ := by
  rw [streakWrite, find?_upsert]
  · cases hf : st.find? (stKey u c) with
    | none => simp [Option.elim]
    | some b =>
      have hb := List.find?_some hf
      cases b with | mk bu bc bcur bbest blast =>
      simp only [stKey, Bool.and_eq_true, beq_iff_eq] at hb
      simp [Option.elim, hb.1, hb.2]
  · intro a ha
    cases a
    simpa [stKey] using ha
  · simp [stKey]

/-- C2 counterexample: with no matching child, a recompute call still
creates a daily-score row, a points-ledger entry, and a streak row. -/
theorem gam_notfound_counterexample :
    (recompute_for_day t0 noChildDB 1 1 d20240101).2.dailyScores ≠ []
    ∧ (recompute_for_day t0 noChildDB 1 1 d20240101).2.ledger ≠ []
    ∧ (recompute_for_day t0 noChildDB 1 1 d20240101).2.streaks ≠ [] := by
  decide

/-- C2 amended: when the child does not exist or is not owned by the caller,
`compute_daily_score` raises before any of its own writes, but
`recompute_for_day` catches the error and continues with score 0 and empty
components: it still upserts a score-0 daily-score row, still grants the
`base` points, and still upserts a streak row. -/
theorem gam_notfound_still_writes (t : Date3) (db : DB) (u c : Nat) (day : Int)
    (h : childLookup db u c = none) :
    (recompute_for_day t db u c day).1.score = 0
    ∧ (recompute_for_day t db u c day).1.components = []
    ∧ (∃ r, (recompute_for_day t db u c day).2.dailyScores.find? (dsKey u c day) = some r
        ∧ r.score = 0)
    ∧ (recompute_for_day t db u c day).2.ledger.any (ledKey u c day "base") = true
    ∧ ∃ s, (recompute_for_day t db u c day).2.streaks.find? (stKey u c) = some s := by
  rw [recompute_char]
  refine ⟨by simp [freshDaily, h], by simp [freshDaily, h], ?_, ?_, ?_⟩
  · rw [coreUpsert_find?]
    refine ⟨_, rfl, ?_⟩
    cases hf : (ormScores t db u c day).find? (dsKey u c day) <;>
      simp [Option.elim, freshDaily, h]
  · exact any_base_after _ _ _ _ _
  · exact ⟨_, streakWrite_find? _ _ _ _⟩

/-- C2 witness: the amended statement holds at the concrete no-child state. -/
theorem gam_notfound_still_writes_witness :
    childLookup noChildDB 1 1 = none
    ∧ ((recompute_for_day t0 noChildDB 1 1 d20240101).1.score = 0
      ∧ (recompute_for_day t0 noChildDB 1 1 d20240101).1.components = []
      ∧ (∃ r, (recompute_for_day t0 noChildDB 1 1 d20240101).2.dailyScores.find? (dsKey 1 1 d20240101) = some r
          ∧ r.score = 0)
      ∧ (recompute_for_day t0 noChildDB 1 1 d20240101).2.ledger.any (ledKey 1 1 d20240101 "base") = true
      ∧ ∃ s, (recompute_for_day t0 noChildDB 1 1 d20240101).2.streaks.find? (stKey 1 1) = some s) :=
  ⟨rfl, gam_notfound_still_writes t0 noChildDB 1 1 d20240101 rfl⟩

/-- C3 counterexample: for a child with no meals on 2024-01-01 and no prior
state, the recompute returns `points_awarded_today = 10` (the `base` grant)
and a six-key zero components mapping, not 0 and the empty mapping. -/
theorem gam_empty_day_counterexample :
    (recompute_for_day t0 noMealDB 1 1 d20240101).1.points_awarded_today ≠ 0
    ∧ (recompute_for_day t0 noMealDB 1 1 d20240101).1.components ≠ [] := by
  decide

/-- C3 amended: for a child with no meals on 2024-01-01 and no prior
gamification state, the recompute returns score 0, components mapping each
weighted nutrient to 0, streak current 0 and best 0, and
`points_awarded_today = 10` from the unconditional `base` grant. -/
theorem gam_empty_day_snapshot :
    (recompute_for_day t0 noMealDB 1 1 d20240101).1 =
      ⟨0, zeroComponents, 0, 0, 10⟩ := by
  decide

/-- C4 counterexample: after recomputes for the seven consecutive active
days 2024-01-01..07 (and even another recompute of day 7), the streak is
{current 7, best 7} but the number of `seven_day_strong` grants for the
user is 0, not exactly 1: `recompute_for_day` never invokes badge awarding. -/
theorem gam_seven_day_badge_counterexample :
    (applyCalls weekCalls weekMealDB).streaks = [⟨1, 1, 7, 7, some (d20240101 + 6)⟩]
    ∧ (((recompute_for_day t0 (applyCalls weekCalls weekMealDB) 1 1 (d20240101 + 6)).2.userBadges.filter
        (fun b => b == (1, "seven_day_strong"))).length = 0) := by
  decide

/-- C4 amended: after the seven consecutive recomputes the streak is
{current 7, best 7} and stays so under repeated day-7 recomputes, but no
`seven_day_strong` badge (nor any badge) is ever granted, because
`recompute_for_day` performs no badge evaluation (`maybe_award_badges` has
no caller). -/
theorem gam_seven_day_streak_no_badge :
    (applyCalls weekCalls weekMealDB).streaks = [⟨1, 1, 7, 7, some (d20240101 + 6)⟩]
    ∧ (recompute_for_day t0 (applyCalls weekCalls weekMealDB) 1 1 (d20240101 + 6)).1.streakCurrent = 7
    ∧ (recompute_for_day t0 (applyCalls weekCalls weekMealDB) 1 1 (d20240101 + 6)).1.streakBest = 7
    ∧ (recompute_for_day t0 (applyCalls weekCalls weekMealDB) 1 1 (d20240101 + 6)).2.streaks
        = [⟨1, 1, 7, 7, some (d20240101 + 6)⟩]
    ∧ (applyCalls weekCalls weekMealDB).userBadges = []
    ∧ (recompute_for_day t0 (applyCalls weekCalls weekMealDB) 1 1 (d20240101 + 6)).2.userBadges = [] := by
  decide
lemma pyRound_intCast (n : Int) : pyRound ((n : ℚ)) = n := by
  simp [pyRound, Int.floor_intCast]

lemma componentPoints_nonneg_le (targets totals : Nutrient → Option ℚ) (k : Nutrient)
    (w : Int) (hw : 0 ≤ w) (h : ∀ x, totals k = some x → 0 ≤ x) :
    0 ≤ componentPoints targets totals k w ∧ componentPoints targets totals k w ≤ w := by
  unfold componentPoints
  cases ht : targets k with
  | none => cases totals k <;> simp [hw]
  | some tgt =>
    cases ha : totals k with
    | none => simp [hw]
    | some act =>
      by_cases htgt : 0 < tgt
      · have hact : 0 ≤ act := h act ha
        have hfrac0 : 0 ≤ min (act / tgt) 1 :=
          le_min (div_nonneg hact (le_of_lt htgt)) zero_le_one
        have hfrac1 : min (act / tgt) 1 ≤ 1 := min_le_right _ _
        have hw' : (0 : ℚ) ≤ (w : ℚ) := by exact_mod_cast hw
        have h0 : 0 ≤ min (act / tgt) 1 * (w : ℚ) := mul_nonneg hfrac0 hw'
        have h1 : min (act / tgt) 1 * (w : ℚ) ≤ (w : ℚ) :=
          mul_le_of_le_one_left hw' hfrac1
        simp only [htgt, if_true]
        exact ⟨pyRound_nonneg _ h0, pyRound_le _ _ h1⟩
      · simp [htgt, hw]

/-- C9 amended: whenever every daily total present is nonnegative, each
per-nutrient component lies between 0 and its weight and the total score
lies in [0, 100], for arbitrary targets. -/
theorem gam_score_bounds (targets totals : Nutrient → Option ℚ)
    (h : ∀ k x, totals k = some x → 0 ≤ x) :
    0 ≤ totalScore targets totals ∧ totalScore targets totals ≤ 100
    ∧ ∀ kw ∈ weights, 0 ≤ componentPoints targets totals kw.1 kw.2
        ∧ componentPoints targets totals kw.1 kw.2 ≤ kw.2 := by
  have hcal := componentPoints_nonneg_le targets totals .calories 25 (by norm_num) (h .calories)
  have hpro := componentPoints_nonneg_le targets totals .protein_g 25 (by norm_num) (h .protein_g)
  have hiro := componentPoints_nonneg_le targets totals .iron_mg 15 (by norm_num) (h .iron_mg)
  have hcle := componentPoints_nonneg_le targets totals .calcium_mg 15 (by norm_num) (h .calcium_mg)
  have hvit := componentPoints_nonneg_le targets totals .vitamin_c_mg 10 (by norm_num) (h .vitamin_c_mg)
  have hfib := componentPoints_nonneg_le targets totals .fiber_g 10 (by norm_num) (h .fiber_g)
  refine ⟨?_, ?_, ?_⟩
  · simp only [totalScore, scoreComponents, weights, List.map_cons, List.map_nil,
      List.sum_cons, List.sum_nil]
    linarith [hcal.1, hpro.1, hiro.1, hcle.1, hvit.1, hfib.1]
  · simp only [totalScore, scoreComponents, weights, List.map_cons, List.map_nil,
      List.sum_cons, List.sum_nil]
    linarith [hcal.2, hpro.2, hiro.2, hcle.2, hvit.2, hfib.2]
  · intro kw hkw
    simp only [weights, List.mem_cons, List.not_mem_nil, or_false] at hkw
    rcases hkw with rfl | rfl | rfl | rfl | rfl | rfl
    · exact hcal
    · exact hpro
    · exact hiro
    · exact hcle
    · exact hvit
    · exact hfib

/-- C9 witness: the bounds hold at the all-absent totals against the 24-month
target band. -/
theorem gam_score_bounds_witness :
    (∀ k x, (fun _ : Nutrient => (none : Option ℚ)) k = some x → 0 ≤ x)
    ∧ (0 ≤ totalScore (targets_for_age_region 24 "US") (fun _ => none)
      ∧ totalScore (targets_for_age_region 24 "US") (fun _ => none) ≤ 100
      ∧ ∀ kw ∈ weights,
          0 ≤ componentPoints (targets_for_age_region 24 "US") (fun _ => none) kw.1 kw.2
          ∧ componentPoints (targets_for_age_region 24 "US") (fun _ => none) kw.1 kw.2 ≤ kw.2) :=
  ⟨fun k x hx => by simp at hx,
   gam_score_bounds (targets_for_age_region 24 "US") (fun _ => none)
     (fun k x hx => by simp at hx)⟩

/-- C9 counterexample: a stored meal with negative calories (nothing in the
engine or schema forbids it) drives the daily score below 0: the bound does
not hold for every combination of totals and targets. -/
theorem gam_score_bound_counterexample :
    (recompute_for_day t0 negMealDB 1 1 d20240101).1.score < 0 := by
  rw [recompute_char]
  have hcl : childLookup negMealDB 1 1 = some youngChild := by decide
  simp only [freshDaily, hcl]
  have htc : targets_for_age_region (calc_age_months t0 youngChild.date_of_birth)
      (youngChild.region.getD "US") Nutrient.calories = some 700 := by decide
  have htp : targets_for_age_region (calc_age_months t0 youngChild.date_of_birth)
      (youngChild.region.getD "US") Nutrient.protein_g = some 11 := by decide
  have hti : targets_for_age_region (calc_age_months t0 youngChild.date_of_birth)
      (youngChild.region.getD "US") Nutrient.iron_mg = some 11 := by decide
  have htca : targets_for_age_region (calc_age_months t0 youngChild.date_of_birth)
      (youngChild.region.getD "US") Nutrient.calcium_mg = none := by decide
  have htvc : targets_for_age_region (calc_age_months t0 youngChild.date_of_birth)
      (youngChild.region.getD "US") Nutrient.vitamin_c_mg = none := by decide
  have htf : targets_for_age_region (calc_age_months t0 youngChild.date_of_birth)
      (youngChild.region.getD "US") Nutrient.fiber_g = none := by decide
  have hoc : totals_for_day negMealDB 1 1 d20240101 Nutrient.calories = some (-700) := by
    simp [totals_for_day, negMealDB, negMeal, mealMatch, Meal.effDate, Meal.nutr, d20240101]
  have hop : totals_for_day negMealDB 1 1 d20240101 Nutrient.protein_g = none := by
    simp [totals_for_day, negMealDB, negMeal, mealMatch, Meal.effDate, Meal.nutr, d20240101]
  have hoi : totals_for_day negMealDB 1 1 d20240101 Nutrient.iron_mg = none := by
    simp [totals_for_day, negMealDB, negMeal, mealMatch, Meal.effDate, Meal.nutr, d20240101]
  simp only [totalScore, scoreComponents, weights, List.map_cons, List.map_nil,
    List.sum_cons, List.sum_nil, componentPoints, htc, htp, hti, htca, htvc, htf,
    hoc, hop, hoi]
  rw [if_pos (by norm_num : (0:ℚ) < 700)]
  have hval : min ((-700 : ℚ) / 700) 1 * ((25 : Int) : ℚ) = ((-25 : Int) : ℚ) := by
    norm_num
  rw [hval, pyRound_intCast]
  norm_num
lemma streaks_unchanged_of_inactive (t : Date3) (db : DB) (u c : Nat) (day : Int)
    (h : db.meals.any (mealMatch u c day) = false)
    (s : StreakRow) (hs : db.streaks.find? (stKey u c) = some s) :
    (recompute_for_day t db u c day).2.streaks = db.streaks := by
  rw [recompute_char]
  show streakWrite u c (streakNew (db.streaks.find? (stKey u c)) day
    (db.meals.any (mealMatch u c day))) db.streaks = db.streaks
  rw [h, hs, streakWrite]
  apply upsert_eq_of_fix _ _ _ _ s hs
  cases s
  simp [streakNew]

/-- C7: a recompute call on a day with zero meals for (user, child) leaves
the streak table unchanged: current_length, best_length and
last_active_date of an existing streak row all keep their values. -/
theorem gam_no_activity_preserves_streak (t : Date3) (db : DB) (u c : Nat) (day : Int)
    (h : db.meals.any (mealMatch u c day) = false)
    (s : StreakRow) (hs : db.streaks.find? (stKey u c) = some s) :
    (recompute_for_day t db u c day).2.streaks = db.streaks :=
  streaks_unchanged_of_inactive t db u c day h s hs

/-- C7 witness: the preservation holds at a concrete state with an existing
(3, 5) streak and an empty day. -/
theorem gam_no_activity_preserves_streak_witness :
    streakDB.meals.any (mealMatch 1 1 d20240101) = false
    ∧ streakDB.streaks.find? (stKey 1 1) = some ⟨1, 1, 3, 5, some (d20240101 - 1)⟩
    ∧ (recompute_for_day t0 streakDB 1 1 d20240101).2.streaks = streakDB.streaks :=
  ⟨rfl, rfl, gam_no_activity_preserves_streak t0 streakDB 1 1 d20240101 rfl
    ⟨1, 1, 3, 5, some (d20240101 - 1)⟩ rfl⟩

/-- C10: on a day with no meals for (user, child) the returned snapshot's
streak is {current 0, best 0} regardless of the persisted streak row, and
the persisted row (when present) is left unchanged. -/
theorem gam_inactive_snapshot_reports_zero (t : Date3) (db : DB) (u c : Nat) (day : Int)
    (h : db.meals.any (mealMatch u c day) = false) :
    (recompute_for_day t db u c day).1.streakCurrent = 0
    ∧ (recompute_for_day t db u c day).1.streakBest = 0
    ∧ ∀ s, db.streaks.find? (stKey u c) = some s →
        (recompute_for_day t db u c day).2.streaks = db.streaks := by
  refine ⟨?_, ?_, fun s hs => streaks_unchanged_of_inactive t db u c day h s hs⟩
  · rw [recompute_char]
    show (if db.meals.any (mealMatch u c day) then _ else (0 : Int)) = 0
    rw [h]
    simp
  · rw [recompute_char]
    show (if db.meals.any (mealMatch u c day) then _ else (0 : Int)) = 0
    rw [h]
    simp

/-- C10 witness: at a state whose persisted streak row is (3, 5), an
empty-day recompute still reports {current 0, best 0} while the row keeps
its values. -/
theorem gam_inactive_snapshot_reports_zero_witness :
    streakDB.meals.any (mealMatch 1 1 d20240101) = false
    ∧ ((recompute_for_day t0 streakDB 1 1 d20240101).1.streakCurrent = 0
      ∧ (recompute_for_day t0 streakDB 1 1 d20240101).1.streakBest = 0
      ∧ ∀ s, streakDB.streaks.find? (stKey 1 1) = some s →
          (recompute_for_day t0 streakDB 1 1 d20240101).2.streaks = streakDB.streaks) :=
  ⟨rfl, gam_inactive_snapshot_reports_zero t0 streakDB 1 1 d20240101 rfl⟩

/-- C6: on a day with at least one meal, the persisted streak row after the
recompute is exactly as the specification describes: current_length given
by the three-way transition, best_length the max of the previous best and
the new current, last_active_date the recomputed day. Stated for states
satisfying `streakOk`, which holds in every state the engine produces
(see `streakOk_applyCalls`). -/
theorem gam_streak_transition (t : Date3) (db : DB) (u c : Nat) (day : Int)
    (hact : db.meals.any (mealMatch u c day) = true)
    (hinv : streakOk db u c) :
    (recompute_for_day t db u c day).2.streaks.find? (stKey u c) =
      some ⟨u, c, claimNewCurrent (db.streaks.find? (stKey u c)) day,
        max (claimPrevBest (db.streaks.find? (stKey u c)))
          (claimNewCurrent (db.streaks.find? (stKey u c)) day),
        some day⟩ := by
  rw [recompute_char]
  show (streakWrite u c (streakNew (db.streaks.find? (stKey u c)) day
      (db.meals.any (mealMatch u c day))) db.streaks).find? (stKey u c) = _
  rw [hact, streakWrite_find?]
  cases hex : db.streaks.find? (stKey u c) with
  | none =>
    simp [streakNew, claimNewCurrent, claimPrevBest]
  | some s =>
    have hinv' := hinv s hex
    by_cases hl1 : s.last_active_date = some (day - 1)
    · simp [streakNew, claimNewCurrent, claimPrevBest, hl1]
    · by_cases hl2 : s.last_active_date = some day
      · have hcur : 1 ≤ s.current_length := hinv' (by simp [hl2])
        have hne : s.current_length ≠ 0 := by omega
        simp [streakNew, claimNewCurrent, claimPrevBest, hl1, hl2, hne]
      · simp [streakNew, claimNewCurrent, claimPrevBest, hl1, hl2]

lemma streakOk_recompute (t : Date3) (db : DB) (u₀ c₀ u c : Nat) (day : Int)
    (h : streakOk db u c) : streakOk (recompute_for_day t db u₀ c₀ day).2 u c := by
  intro s hs hl
  rw [recompute_char] at hs
  have hs' : (streakWrite u₀ c₀ (streakNew (db.streaks.find? (stKey u₀ c₀)) day
      (db.meals.any (mealMatch u₀ c₀ day))) db.streaks).find? (stKey u c) = some s := hs
  by_cases hk : u₀ = u ∧ c₀ = c
  · obtain ⟨rfl, rfl⟩ := hk
    rw [streakWrite_find?] at hs'
    obtain rfl := (Option.some.inj hs').symm
    revert hl
    show (streakNew (db.streaks.find? (stKey u₀ c₀)) day
        (db.meals.any (mealMatch u₀ c₀ day))).2.2 ≠ none →
      1 ≤ (streakNew (db.streaks.find? (stKey u₀ c₀)) day
        (db.meals.any (mealMatch u₀ c₀ day))).1
    cases hb : db.meals.any (mealMatch u₀ c₀ day) with
    | true =>
      cases hex : db.streaks.find? (stKey u₀ c₀) with
      | none =>
        intro _
        simp [streakNew]
      | some s' =>
        intro _
        have hok := h s' hex
        by_cases hl1 : s'.last_active_date = some (day - 1)
        · have : 1 ≤ s'.current_length := hok (by simp [hl1])
          simp only [streakNew, hl1]
          simp
          omega
        · by_cases hl2 : s'.last_active_date = some day
          · have : 1 ≤ s'.current_length := hok (by simp [hl2])
            simp only [streakNew, hl2]
            simp [hl1, show s'.last_active_date = some day from hl2]
            omega
          · simp [streakNew, hl1, hl2]
    | false =>
      cases hex : db.streaks.find? (stKey u₀ c₀) with
      | none => intro hcon; simp [streakNew] at hcon
      | some s' =>
        intro hlast
        have : s'.last_active_date ≠ none := by simpa [streakNew] using hlast
        have hok := h s' hex this
        simpa [streakNew] using hok
  · have hdisj : ∀ a, stKey u₀ c₀ a = true → stKey u c a = false := by
      intro a ha
      cases a with | mk au ac x y z =>
      simp only [stKey, Bool.and_eq_true, beq_iff_eq] at ha
      rcases not_and_or.mp hk with h' | h' <;>
        simp [stKey, beq_iff_eq, ha.1, ha.2, h']
    rw [streakWrite, find?_upsert_disjoint] at hs'
    · exact h s hs' hl
    · exact hdisj
    · intro a
      cases a
      rfl
    · exact hdisj _ (by simp [stKey])

lemma streakOk_applyCalls (calls : List (Date3 × Nat × Nat × Int)) (db : DB) (u c : Nat)
    (h : streakOk db u c) : streakOk (applyCalls calls db) u c := by
  induction calls generalizing db with
  | nil => exact h
  | cons q qs ih =>
    have hstep := streakOk_recompute q.1 db q.2.1 q.2.2.1 u c q.2.2.2 h
    have : applyCalls (q :: qs) db = applyCalls qs (recompute_for_day q.1 db q.2.1 q.2.2.1 q.2.2.2).2 := by
      simp [applyCalls]
    rw [this]
    exact ih _ hstep

/-- C6 witness: at the concrete consecutive-day state the persisted row
becomes (3, 5) with last_active_date 2024-01-01, as the transition claims. -/
theorem gam_streak_transition_witness :
    streakActiveDB.meals.any (mealMatch 1 1 d20240101) = true
    ∧ (recompute_for_day t0 streakActiveDB 1 1 d20240101).2.streaks.find? (stKey 1 1)
        = some ⟨1, 1, 3, 5, some d20240101⟩ := by
  constructor
  · rfl
  · have hinv : streakOk streakActiveDB 1 1 := by
      intro s hs hl
      obtain rfl := (Option.some.inj hs).symm
      decide
    have h := gam_streak_transition t0 streakActiveDB 1 1 d20240101 rfl hinv
    rw [h]
    decide
/-- C5: in every recompute call the three grants are evaluated against the
freshly computed score of that same call: `base` (10) is always attempted,
`score70` (10) requires score ≥ 70, `score90` (20) requires score ≥ 90;
each succeeds exactly when no ledger entry with that (user, child, date,
reason) exists; `points_awarded_today` sums exactly the grants that
succeeded in this call; afterwards the corresponding entries exist. -/
theorem gam_points_grant_rules (t : Date3) (db : DB) (u c : Nat) (day : Int) :
    (recompute_for_day t db u c day).1.points_awarded_today
      = (if db.ledger.any (ledKey u c day "base") = true then 0 else 10)
        + (if 70 ≤ (recompute_for_day t db u c day).1.score
            ∧ db.ledger.any (ledKey u c day "score70") = false then 10 else 0)
        + (if 90 ≤ (recompute_for_day t db u c day).1.score
            ∧ db.ledger.any (ledKey u c day "score90") = false then 20 else 0)
    ∧ (recompute_for_day t db u c day).2.ledger
        = db.ledger ++ grantTail db.ledger u c day (recompute_for_day t db u c day).1.score
    ∧ (recompute_for_day t db u c day).2.ledger.any (ledKey u c day "base") = true
    ∧ (70 ≤ (recompute_for_day t db u c day).1.score →
        (recompute_for_day t db u c day).2.ledger.any (ledKey u c day "score70") = true)
    ∧ (90 ≤ (recompute_for_day t db u c day).1.score →
        (recompute_for_day t db u c day).2.ledger.any (ledKey u c day "score90") = true) := by
  rw [recompute_char]
  refine ⟨rfl, rfl, ?_, ?_, ?_⟩
  · exact any_base_after _ _ _ _ _
  · intro h
    exact any_score70_after _ _ _ _ _ h
  · intro h
    exact any_score90_after _ _ _ _ _ h
lemma freshDaily_congr (t : Date3) (db' db : DB) (u c : Nat) (day : Int)
    (hch : db'.children = db.children) (hm : db'.meals = db.meals) :
    freshDaily t db' u c day = freshDaily t db u c day := by
  unfold freshDaily childLookup totals_for_day
  simp only [hch, hm]

lemma coreUpsert_fix (u c : Nat) (day : Int) (sv : Int) (ds : List DailyScoreRow)
    (r : DailyScoreRow) (hr : ds.find? (dsKey u c day) = some r) (hs : r.score = sv) :
    coreUpsertScore u c day sv ds = ds := by
  rw [coreUpsertScore]
  apply upsert_eq_of_fix _ _ _ _ r hr
  cases r
  simp_all

lemma ormScores_find? (t : Date3) (db : DB) (u c : Nat) (day : Int) (child : Child)
    (hcl : childLookup db u c = some child) :
    ∃ rr, (ormScores t db u c day).find? (dsKey u c day) = some rr
      ∧ rr.score = (freshDaily t db u c day).1
      ∧ rr.components = (freshDaily t db u c day).2 := by
  rw [ormScores]
  simp only [hcl]
  rw [find?_upsert]
  · cases db.dailyScores.find? (dsKey u c day) <;> simp [Option.elim]
  · intro a ha
    cases a
    simpa [dsKey] using ha
  · simp [dsKey]

lemma call1_ds_find? (t : Date3) (db : DB) (u c : Nat) (day : Int) :
    ∃ r, (coreUpsertScore u c day (freshDaily t db u c day).1 (ormScores t db u c day)).find?
        (dsKey u c day) = some r
      ∧ r.score = (freshDaily t db u c day).1
      ∧ (childLookup db u c = none ∨ r.components = (freshDaily t db u c day).2) := by
  cases hcl : childLookup db u c with
  | none =>
    rw [coreUpsert_find?]
    refine ⟨_, rfl, ?_, Or.inl rfl⟩
    cases (ormScores t db u c day).find? (dsKey u c day) <;> simp [Option.elim]
  | some child =>
    obtain ⟨rr, hrr, hsc, hcc⟩ := ormScores_find? t db u c day child hcl
    rw [coreUpsert_find?, hrr]
    exact ⟨_, rfl, by simp [Option.elim], Or.inr (by simp [Option.elim, hcc])⟩

lemma grant_idem (l₀ : List LedgerRow) (u c : Nat) (day : Int) (rb : Int) :
    grantTail (l₀ ++ grantTail l₀ u c day rb) u c day rb = []
    ∧ grantSum (l₀ ++ grantTail l₀ u c day rb) u c day rb = 0 := by
  have hb := any_base_after l₀ u c day rb
  have c70 : ¬(70 ≤ rb ∧ (l₀ ++ grantTail l₀ u c day rb).any (ledKey u c day "score70") = false) := by
    rintro ⟨h1, h2⟩
    rw [any_score70_after l₀ u c day rb h1] at h2
    simp at h2
  have c90 : ¬(90 ≤ rb ∧ (l₀ ++ grantTail l₀ u c day rb).any (ledKey u c day "score90") = false) := by
    rintro ⟨h1, h2⟩
    rw [any_score90_after l₀ u c day rb h1] at h2
    simp at h2
  constructor
  · rw [grantTail, if_pos hb, if_neg c70, if_neg c90]
    rfl
  · rw [grantSum, if_pos hb, if_neg c70, if_neg c90]
    rfl

lemma streakNew_stable (u c : Nat) (existing : Option StreakRow) (day : Int) (b : Bool) :
    streakNew (some ⟨u, c, (streakNew existing day b).1, (streakNew existing day b).2.1,
      (streakNew existing day b).2.2⟩) day b = streakNew existing day b := by
  cases b with
  | false => simp [streakNew]
  | true =>
    have hne : ¬(day = day - 1) := by omega
    simp [streakNew, hne, max_assoc]

lemma freshDaily_set (t : Date3) (db : DB) (u c : Nat) (day : Int)
    (ds : List DailyScoreRow) (lg : List LedgerRow) (st : List StreakRow)
    (ub : List (Nat × String)) :
    freshDaily t (DB.mk db.children db.meals ds lg st ub) u c day
      = freshDaily t db u c day := rfl

lemma streakWrite_fix (u c : Nat) (nv : Int × Int × Option Int) (st : List StreakRow) :
    streakWrite u c nv (streakWrite u c nv st) = streakWrite u c nv st := by
  rw [streakWrite]
  exact upsert_eq_of_fix _ _ _ _ _ (streakWrite_find? u c nv st) rfl

lemma ormScores_second (t : Date3) (db : DB) (u c : Nat) (day : Int)
    (lg : List LedgerRow) (st : List StreakRow) (ub : List (Nat × String)) :
    ormScores t (DB.mk db.children db.meals
        (coreUpsertScore u c day (freshDaily t db u c day).1 (ormScores t db u c day)) lg st ub)
        u c day
      = coreUpsertScore u c day (freshDaily t db u c day).1 (ormScores t db u c day) := by
  have hclset : childLookup (DB.mk db.children db.meals
      (coreUpsertScore u c day (freshDaily t db u c day).1 (ormScores t db u c day)) lg st ub) u c
      = childLookup db u c := rfl
  cases hcl : childLookup db u c with
  | none =>
    rw [ormScores, hclset, hcl]
  | some child =>
    rw [ormScores, hclset, hcl]
    obtain ⟨r, hr, hsc, hor⟩ := call1_ds_find? t db u c day
    rcases hor with hno | hcc
    · rw [hno] at hcl
      cases hcl
    · apply upsert_eq_of_fix _ _ _ _ r
      · rw [freshDaily_set]
        exact hr
      · rw [freshDaily_set]
        cases r
        simp_all

lemma coreUpsert_second (t : Date3) (db : DB) (u c : Nat) (day : Int) :
    coreUpsertScore u c day (freshDaily t db u c day).1
        (coreUpsertScore u c day (freshDaily t db u c day).1 (ormScores t db u c day))
      = coreUpsertScore u c day (freshDaily t db u c day).1 (ormScores t db u c day) := by
  obtain ⟨r, hr, hsc, _⟩ := call1_ds_find? t db u c day
  exact coreUpsert_fix _ _ _ _ _ r hr hsc

lemma recompute_second (t : Date3) (db : DB) (u c : Nat) (day : Int) :
    recompute_for_day t (recompute_for_day t db u c day).2 u c day
      = ({ score := (recompute_for_day t db u c day).1.score,
           components := (recompute_for_day t db u c day).1.components,
           streakCurrent := (recompute_for_day t db u c day).1.streakCurrent,
           streakBest := (recompute_for_day t db u c day).1.streakBest,
           points_awarded_today := 0 },
         (recompute_for_day t db u c day).2) := by
  simp only [recompute_char]
  simp only [freshDaily_set, ormScores_second, coreUpsert_second, streakWrite_find?,
    streakNew_stable, streakWrite_fix,
    (grant_idem db.ledger u c day (freshDaily t db u c day).1).1,
    (grant_idem db.ledger u c day (freshDaily t db u c day).1).2,
    List.append_nil]

/-- C1: calling `recompute_for_day` twice in a row for the same
(user, child, date) with unchanged meals yields identical score,
components, and streak in both snapshots, leaves the persisted daily-score
and streak state unchanged by the second call, and the second call's
`points_awarded_today` is 0 (no double grants). -/
theorem gam_recompute_idempotent (t : Date3) (db : DB) (u c : Nat) (day : Int) :
    (recompute_for_day t (recompute_for_day t db u c day).2 u c day).1.score
        = (recompute_for_day t db u c day).1.score
    ∧ (recompute_for_day t (recompute_for_day t db u c day).2 u c day).1.components
        = (recompute_for_day t db u c day).1.components
    ∧ (recompute_for_day t (recompute_for_day t db u c day).2 u c day).1.streakCurrent
        = (recompute_for_day t db u c day).1.streakCurrent
    ∧ (recompute_for_day t (recompute_for_day t db u c day).2 u c day).1.streakBest
        = (recompute_for_day t db u c day).1.streakBest
    ∧ (recompute_for_day t (recompute_for_day t db u c day).2 u c day).1.points_awarded_today = 0
    ∧ (recompute_for_day t (recompute_for_day t db u c day).2 u c day).2.dailyScores
        = (recompute_for_day t db u c day).2.dailyScores
    ∧ (recompute_for_day t (recompute_for_day t db u c day).2 u c day).2.streaks
        = (recompute_for_day t db u c day).2.streaks
    ∧ (recompute_for_day t (recompute_for_day t db u c day).2 u c day).2.ledger
        = (recompute_for_day t db u c day).2.ledger := by
  rw [recompute_second]
  simp

lemma grantTail_absent (l₀ : List LedgerRow) (u c : Nat) (day : Int) (rb : Int) :
    ∀ e ∈ grantTail l₀ u c day rb, l₀.any (ledKey u c day e.reason) = false
      ∧ e.user_id = u ∧ e.child_id = c ∧ e.date = day := by
  intro e he
  rw [grantTail] at he
  rcases List.mem_append.mp he with hAB | hC
  · rcases List.mem_append.mp hAB with hA | hB
    · by_cases hb : l₀.any (ledKey u c day "base") = true
      · rw [if_pos hb] at hA
        exact absurd hA (List.not_mem_nil e)
      · rw [if_neg hb] at hA
        obtain rfl := List.mem_singleton.mp hA
        exact ⟨by simpa using hb, rfl, rfl, rfl⟩
    · by_cases h70 : 70 ≤ rb ∧ l₀.any (ledKey u c day "score70") = false
      · rw [if_pos h70] at hB
        obtain rfl := List.mem_singleton.mp hB
        exact ⟨h70.2, rfl, rfl, rfl⟩
      · rw [if_neg h70] at hB
        exact absurd hB (List.not_mem_nil e)
  · by_cases h90 : 90 ≤ rb ∧ l₀.any (ledKey u c day "score90") = false
    · rw [if_pos h90] at hC
      obtain rfl := List.mem_singleton.mp hC
      exact ⟨h90.2, rfl, rfl, rfl⟩
    · rw [if_neg h90] at hC
      exact absurd hC (List.not_mem_nil e)

lemma grantTail_pairwise (l₀ : List LedgerRow) (u c : Nat) (day : Int) (rb : Int) :
    (grantTail l₀ u c day rb).Pairwise (fun a b => ¬(a.user_id = b.user_id
      ∧ a.child_id = b.child_id ∧ a.date = b.date ∧ a.reason = b.reason)) := by
  have h1 : ("base" : String) ≠ "score70" := by decide
  have h2 : ("base" : String) ≠ "score90" := by decide
  have h3 : ("score70" : String) ≠ "score90" := by decide
  rw [grantTail]
  by_cases hb : l₀.any (ledKey u c day "base") = true <;>
    [rw [if_pos hb]; rw [if_neg hb]] <;>
  by_cases h70 : 70 ≤ rb ∧ l₀.any (ledKey u c day "score70") = false <;>
    first
    | (rw [if_pos h70]
       by_cases h90 : 90 ≤ rb ∧ l₀.any (ledKey u c day "score90") = false <;>
         [rw [if_pos h90]; rw [if_neg h90]] <;>
       simp [List.pairwise_cons, h1, h2, h3])
    | (rw [if_neg h70]
       by_cases h90 : 90 ≤ rb ∧ l₀.any (ledKey u c day "score90") = false <;>
         [rw [if_pos h90]; rw [if_neg h90]] <;>
       simp [List.pairwise_cons, h1, h2, h3])

lemma unique_after_call (t : Date3) (db : DB) (u c : Nat) (day : Int)
    (hu : ledgerKeysUnique db.ledger) :
    ledgerKeysUnique (recompute_for_day t db u c day).2.ledger := by
  rw [recompute_char]
  show ledgerKeysUnique (db.ledger ++ grantTail db.ledger u c day (freshDaily t db u c day).1)
  rw [ledgerKeysUnique, List.pairwise_append]
  refine ⟨hu, grantTail_pairwise _ _ _ _ _, ?_⟩
  intro a ha b hb
  obtain ⟨habs, hbu, hbc, hbd⟩ := grantTail_absent _ _ _ _ _ b hb
  rintro ⟨h1, h2, h3, h4⟩
  have hkey : ledKey u c day b.reason a = true := by
    simp only [ledKey, Bool.and_eq_true, beq_iff_eq]
    exact ⟨⟨⟨h1.trans hbu, h2.trans hbc⟩, h3.trans hbd⟩, h4⟩
  have hany : db.ledger.any (ledKey u c day b.reason) = true :=
    List.any_eq_true.mpr ⟨a, ha, hkey⟩
  rw [habs] at hany
  cases hany

lemma count_le_one (l : List LedgerRow) (hu : ledgerKeysUnique l)
    (u c : Nat) (day : Int) (reason : String) :
    (l.filter (ledKey u c day reason)).length ≤ 1 := by
  induction l with
  | nil => simp
  | cons a as ih =>
    rw [ledgerKeysUnique, List.pairwise_cons] at hu
    obtain ⟨ha, hu'⟩ := hu
    by_cases hpa : ledKey u c day reason a = true
    · rw [List.filter_cons_of_pos hpa]
      have hnil : as.filter (ledKey u c day reason) = [] := by
        rw [List.filter_eq_nil_iff]
        intro b hb hpb
        apply ha b hb
        simp only [ledKey, Bool.and_eq_true, beq_iff_eq] at hpa hpb
        exact ⟨hpa.1.1.1.trans hpb.1.1.1.symm, hpa.1.1.2.trans hpb.1.1.2.symm,
          hpa.1.2.trans hpb.1.2.symm, hpa.2.trans hpb.2.symm⟩
      rw [hnil]
      simp
    · rw [List.filter_cons_of_neg (by simpa using hpa)]
      exact ih hu'

lemma unique_applyCalls (calls : List (Date3 × Nat × Nat × Int)) (db : DB)
    (hu : ledgerKeysUnique db.ledger) : ledgerKeysUnique (applyCalls calls db).ledger := by
  induction calls generalizing db with
  | nil => exact hu
  | cons q qs ih =>
    have hstep := unique_after_call q.1 db q.2.1 q.2.2.1 q.2.2.2 hu
    have happ : applyCalls (q :: qs) db
        = applyCalls qs (recompute_for_day q.1 db q.2.1 q.2.2.1 q.2.2.2).2 := by
      simp [applyCalls]
    rw [happ]
    exact ih _ hstep

/-- C8: starting from a state whose ledger satisfies the uniqueness
invariant, a recompute call only appends entries whose keys were absent
(existing entries are never updated or deleted), and after any number of
further recompute calls at most one ledger entry exists per
(user, child, date, reason). -/
theorem gam_ledger_unique_append_only (t : Date3) (db : DB) (u c : Nat) (day : Int)
    (hu : ledgerKeysUnique db.ledger) :
    (∃ tail, (recompute_for_day t db u c day).2.ledger = db.ledger ++ tail
      ∧ ∀ e ∈ tail, db.ledger.any (ledKey u c day e.reason) = false)
    ∧ ∀ calls : List (Date3 × Nat × Nat × Int), ∀ u' c' : Nat, ∀ day' : Int,
        ∀ reason : String,
        (((applyCalls calls db).ledger).filter (ledKey u' c' day' reason)).length ≤ 1 := by
  constructor
  · refine ⟨grantTail db.ledger u c day (freshDaily t db u c day).1, ?_, ?_⟩
    · rw [recompute_char]
    · intro e he
      exact (grantTail_absent _ _ _ _ _ e he).1
  · intro calls u' c' day' reason
    exact count_le_one _ (unique_applyCalls calls db hu) u' c' day' reason

/-- C8 witness: the append-only and uniqueness conclusions hold at the
concrete empty-ledger state. -/
theorem gam_ledger_unique_append_only_witness :
    ledgerKeysUnique noMealDB.ledger
    ∧ ((∃ tail, (recompute_for_day t0 noMealDB 1 1 d20240101).2.ledger
          = noMealDB.ledger ++ tail
        ∧ ∀ e ∈ tail, noMealDB.ledger.any (ledKey 1 1 d20240101 e.reason) = false)
      ∧ ∀ calls : List (Date3 × Nat × Nat × Int), ∀ u' c' : Nat, ∀ day' : Int,
          ∀ reason : String,
          (((applyCalls calls noMealDB).ledger).filter (ledKey u' c' day' reason)).length ≤ 1) :=
  ⟨List.Pairwise.nil,
   gam_ledger_unique_append_only t0 noMealDB 1 1 d20240101 List.Pairwise.nil⟩

